import Mathlib

/-
Verification of the HD descriptor-derivation engine and sync facade of the
bdk-cli repository (src/utils.rs), against its natural-language specification.

The Rust code in src/utils.rs is embedded shallowly below.  Pure functions of
the repository are translated definition-by-definition; behavior supplied by
external library crates (rust-bitcoin base58/bip32 codecs, secp256k1, the hash
functions, the bdk_kyoto light client) is modelled from the specification and
each such definition carries a doc comment starting with "Modelled from the
spec".  JSON/string serialization of final outputs is out of scope per the
specification, so responses are kept as structured records whose fields mirror
the JSON objects the code assembles.
-/

deriving instance DecidableEq for Except

set_option maxRecDepth 100000

namespace BdkCli

/-- Network argument of the facade operations (external library bitcoin::Network,
modelled from the spec's network parameter; the variants of the library enum). -/
inductive Network
  | bitcoin
  | testnet
  | testnet4
  | signet
  | regtest
deriving DecidableEq, Repr, Inhabited

/-- Display form of a network, as echoed into the response's network field
(external library Display impl, modelled from the spec). -/
def Network.displayString : Network → String
  | .bitcoin => "bitcoin"
  | .testnet => "testnet"
  | .testnet4 => "testnet4"
  | .signet => "signet"
  | .regtest => "regtest"

/-- Network kind tag carried by an extended key, determined by its version
bytes (external library bitcoin::NetworkKind). -/
inductive NetworkKind
  | main
  | test
deriving DecidableEq, Repr, Inhabited

/-- Network-to-kind coercion of the external library: mainnet maps to main,
every other network to test. -/
def Network.toKind : Network → NetworkKind
  | .bitcoin => NetworkKind.main
  | _ => NetworkKind.test

/-- One derivation-path segment: an index below 2^31 plus a hardened flag
(external library bitcoin::bip32::ChildNumber). -/
inductive ChildNumber
  | normal (index : Nat)
  | hardened (index : Nat)
deriving DecidableEq, Repr, Inhabited

abbrev DerivationPath := List ChildNumber

/-- Decimal digit value of a character, used by the u32 segment parse. -/
def decimalDigit? (c : Char) : Option Nat :=
  if c.isDigit then some (c.toNat - 48) else none

/-- Value of a nonempty all-digit character list (models u32::from_str on the
digit-only inputs the path grammar produces; overflow is checked by callers). -/
def digitsToNat? (cs : List Char) : Option Nat :=
  if cs.isEmpty then none
  else cs.foldlM (fun acc c => (decimalDigit? c).map (fun d => acc * 10 + d)) 0

/-- Apostrophe character, one of the two hardened markers of the path grammar. -/
def hardMarker : Char := Char.ofNat 39

/-- Translation of ChildNumber::from_str (external library bitcoin::bip32): a
trailing apostrophe or lowercase h marks a hardened segment; the index must be
a decimal u32 below 2^31. -/
def ChildNumber.fromChars (cs : List Char) : Except String ChildNumber :=
  let isHard : Bool :=
    match cs.getLast? with
    | some l => (l == hardMarker) || (l == 'h')
    | none => false
  if isHard then
    match digitsToNat? cs.dropLast with
    | none => .error "InvalidChildNumberFormat"
    | some n =>
      if n ≥ 4294967296 then .error "InvalidChildNumberFormat"
      else if n ≥ 2147483648 then .error "InvalidChildNumber"
      else .ok (ChildNumber.hardened n)
  else
    match digitsToNat? cs with
    | none => .error "InvalidChildNumberFormat"
    | some n =>
      if n ≥ 4294967296 then .error "InvalidChildNumberFormat"
      else if n ≥ 2147483648 then .error "InvalidChildNumber"
      else .ok (ChildNumber.normal n)

/-- Split of a character list on a separator (models str::split). -/
def splitOnChar (sep : Char) : List Char → List (List Char)
  | [] => [[]]
  | c :: rest =>
    let r := splitOnChar sep rest
    if c = sep then [] :: r
    else
      match r with
      | [] => [[c]]
      | g :: gs => (c :: g) :: gs

/-- Translation of DerivationPath::from_str (external library bitcoin::bip32):
empty, "m" and "m/" denote the empty path; an optional leading "m/" is
stripped; the remainder splits on slashes into ChildNumber segments. -/
def DerivationPath.fromStr (path : String) : Except String DerivationPath :=
  let cs := path.toList
  if cs.isEmpty || cs = ['m'] || cs = ['m', '/'] then .ok []
  else
    let cs2 :=
      match cs with
      | 'm' :: '/' :: rest => rest
      | other => other
    (splitOnChar '/' cs2).mapM ChildNumber.fromChars

/-- Base58 alphabet of the key-text encoding (external library bitcoin::base58). -/
def base58Alphabet : List Char :=
  "123456789ABCDEFGHJKLMNPQRSTUVWXYZabcdefghijkmnopqrstuvwxyz".toList

/-- Digit value of one base58 character. -/
def base58CharValue? (c : Char) : Option Nat :=
  base58Alphabet.findIdx? (· == c)

/-- Big-endian minimal byte expansion of a natural, bounded by a fuel that
exceeds the length of any payload accepted by the 78-byte key check. -/
def natToBytesAux : Nat → Nat → List Nat
  | 0, _ => []
  | fuel + 1, n => if n = 0 then [] else natToBytesAux fuel (n / 256) ++ [n % 256]

def natToBytes (n : Nat) : List Nat := natToBytesAux 128 n

/-- Fixed-width big-endian byte expansion. -/
def natToBytesFixed : Nat → Nat → List Nat
  | 0, _ => []
  | len + 1, n => natToBytesFixed len (n / 256) ++ [n % 256]

def bytesToNat (bs : List Nat) : Nat := bs.foldl (fun a b => a * 256 + b) 0

/-- Translation of base58 decoding (external library bitcoin::base58): every
character must be in the alphabet; leading ones become leading zero bytes. -/
def base58Decode (cs : List Char) : Option (List Nat) :=
  match cs.mapM base58CharValue? with
  | none => none
  | some vals =>
    let value := vals.foldl (fun a d => a * 58 + d) 0
    let zeros := (cs.takeWhile (· == '1')).length
    some (List.replicate zeros 0 ++ natToBytes value)

/-- Modelled from the spec: the double-SHA256 checksum of the base58-check
encoding (ExtendedKeyCodec; the hash itself lives in an external library).
Modelled as a deterministic 32-bit rolling hash of the payload; the claims
depend only on the checksum being a pure deterministic function of the payload. -/
def checksum4 (payload : List Nat) : List Nat :=
  let h := payload.foldl (fun a b => (a * 131 + b + 17) % 4294967296) 1
  [h / 16777216 % 256, h / 65536 % 256, h / 256 % 256, h % 256]

/-- Translation of base58::decode_check (external library): base58 decode, the
last four bytes are a checksum of the rest.  Error strings stand for the
library's error variants. -/
def base58CheckDecode (s : String) : Except String (List Nat) :=
  match base58Decode s.toList with
  | none => .error "InvalidCharacterError"
  | some bytes =>
    if bytes.length < 4 then .error "TooShortError"
    else
      let payload := bytes.take (bytes.length - 4)
      let check := bytes.drop (bytes.length - 4)
      if check = checksum4 payload then .ok payload
      else .error "IncorrectChecksumError"

/-- Order of the secp256k1 group, bounding valid secret keys. -/
def secpOrder : Nat :=
  115792089237316195423570985008687907852837564279074904382605163141518161494337

/-- Extended private key (external library bitcoin::bip32::Xpriv): network
kind, depth, parent fingerprint, child number, chain code, secret scalar. -/
structure Xpriv where
  network : NetworkKind
  depth : Nat
  parent_fingerprint : List Nat
  child_number : ChildNumber
  chain_code : List Nat
  private_key : Nat
deriving DecidableEq, Repr, Inhabited

/-- Extended public key (external library bitcoin::bip32::Xpub); the public
key field holds the 33 serialized bytes. -/
structure Xpub where
  network : NetworkKind
  depth : Nat
  parent_fingerprint : List Nat
  child_number : ChildNumber
  chain_code : List Nat
  public_key : List Nat
deriving DecidableEq, Repr, Inhabited

/-- Child number from a raw u32: values at or above 2^31 are hardened. -/
def ChildNumber.fromU32 (n : Nat) : ChildNumber :=
  if n ≥ 2147483648 then ChildNumber.hardened (n - 2147483648)
  else ChildNumber.normal n

/-- Translation of Xpriv::decode (external library bitcoin::bip32): a 78-byte
payload with the version bytes selecting the network kind; the secret scalar
is read from bytes 46..78 and must be a valid nonzero scalar below the group
order.  As in the library, byte 45 is not inspected. -/
def Xpriv.decode (data : List Nat) : Except String Xpriv :=
  if data.length ≠ 78 then .error "WrongExtendedKeyLength"
  else if data.take 4 = [4, 136, 173, 228] ∨ data.take 4 = [4, 53, 131, 148] then
    let network : NetworkKind :=
      if data.take 4 = [4, 136, 173, 228] then NetworkKind.main else NetworkKind.test
    let sk := bytesToNat (data.drop 46)
    if sk = 0 ∨ sk ≥ secpOrder then .error "InvalidSecretKey"
    else
      .ok { network := network
            depth := data.getD 4 0
            parent_fingerprint := (data.drop 5).take 4
            child_number := ChildNumber.fromU32 (bytesToNat ((data.drop 9).take 4))
            chain_code := (data.drop 13).take 32
            private_key := sk }
  else .error "UnknownVersion"

/-- Translation of Xpub::decode (external library bitcoin::bip32): a 78-byte
payload; the 33 public-key bytes are read from bytes 45..78 and must start
with a compressed-point tag (curve membership of the remaining coordinate is
modelled as always holding). -/
def Xpub.decode (data : List Nat) : Except String Xpub :=
  if data.length ≠ 78 then .error "WrongExtendedKeyLength"
  else if data.take 4 = [4, 136, 178, 30] ∨ data.take 4 = [4, 53, 135, 207] then
    let network : NetworkKind :=
      if data.take 4 = [4, 136, 178, 30] then NetworkKind.main else NetworkKind.test
    let pk := data.drop 45
    if pk.getD 0 0 = 2 ∨ pk.getD 0 0 = 3 then
      .ok { network := network
            depth := data.getD 4 0
            parent_fingerprint := (data.drop 5).take 4
            child_number := ChildNumber.fromU32 (bytesToNat ((data.drop 9).take 4))
            chain_code := (data.drop 13).take 32
            public_key := pk }
    else .error "InvalidPublicKey"
  else .error "UnknownVersion"

/-- Translation of Xpriv::from_str (external library): base58-check decode,
length check, byte decode. -/
def parseXpriv (s : String) : Except String Xpriv :=
  match base58CheckDecode s with
  | .error e => .error e
  | .ok data =>
    if data.length ≠ 78 then .error "InvalidBase58PayloadLength"
    else Xpriv.decode data

/-- Translation of Xpub::from_str (external library): base58-check decode,
length check, byte decode. -/
def parseXpub (s : String) : Except String Xpub :=
  match base58CheckDecode s with
  | .error e => .error e
  | .ok data =>
    if data.length ≠ 78 then .error "InvalidBase58PayloadLength"
    else Xpub.decode data

abbrev Fingerprint := List Nat

/-- Modelled from the spec: secp256k1 public-key computation of the external
library, serialized in 33-byte compressed form.  Modelled as the tag byte 2
followed by the 32-byte big-endian secret scalar; the claims depend only on
the computation being pure and deterministic. -/
def secpPubkeyBytes (sk : Nat) : List Nat := 2 :: natToBytesFixed 32 sk

/-- Modelled from the spec: a Fingerprint is "computed as the leading bytes of
a double-hash of the serialized public key" (spec data model; the hashes live
in an external library).  Modelled as a deterministic 32-bit rolling hash. -/
def fingerprintOfPubkeyBytes (pk : List Nat) : Fingerprint :=
  let h := pk.foldl (fun a b => (a * 131 + b + 29) % 4294967296) 7
  [h / 16777216 % 256, h / 65536 % 256, h / 256 % 256, h % 256]

/-- Fingerprint of an extended private key: the double-hash of its serialized
public key (translation of Xpriv::fingerprint over the modelled primitives). -/
def Xpriv.fingerprint (k : Xpriv) : Fingerprint :=
  fingerprintOfPubkeyBytes (secpPubkeyBytes k.private_key)

/-- Fingerprint of an extended public key. -/
def Xpub.fingerprint (k : Xpub) : Fingerprint :=
  fingerprintOfPubkeyBytes k.public_key

/-- Translation of Xpub::from_priv (external library): the neutered form of a
private key keeps all derivation metadata and replaces the secret scalar with
its public key. -/
def Xpriv.neuter (k : Xpriv) : Xpub :=
  { network := k.network
    depth := k.depth
    parent_fingerprint := k.parent_fingerprint
    child_number := k.child_number
    chain_code := k.chain_code
    public_key := secpPubkeyBytes k.private_key }

/-- Modelled from the spec: one BIP32 child-key derivation step (external
library; the spec's DescriptorKeyFactory collaborator).  The child's depth is
the parent's depth plus one, its parent fingerprint is the parent's
fingerprint, its child number is the given index; the child scalar and chain
code come from a modelled deterministic mix standing in for HMAC-SHA512. -/
def Xpriv.ckd_priv (k : Xpriv) (i : ChildNumber) : Xpriv :=
  let idx : Nat :=
    match i with
    | .normal n => n
    | .hardened n => n + 2147483648
  { network := k.network
    depth := k.depth + 1
    parent_fingerprint := k.fingerprint
    child_number := i
    chain_code := natToBytesFixed 32 (bytesToNat k.chain_code * 31 + idx + 1)
    private_key := (k.private_key * 2654435761 + bytesToNat k.chain_code + idx) % (secpOrder - 1) + 1 }

/-- Translation of Xpriv::derive_priv (external library): fold of single-step
derivation over the path. -/
def Xpriv.derive_priv (k : Xpriv) (path : DerivationPath) : Xpriv :=
  path.foldl Xpriv.ckd_priv k

/-- Wildcard mode of a descriptor key (external library
miniscript::descriptor::Wildcard). -/
inductive Wildcard
  | none
  | unhardened
  | hardened
deriving DecidableEq, Repr, Inhabited

/-- Descriptor extended key (external library miniscript DescriptorXKey):
origin pair, root key, trailing derivation path, wildcard mode. -/
structure DescriptorXKey (K : Type) where
  origin : Option (Fingerprint × DerivationPath)
  xkey : K
  derivation_path : DerivationPath
  wildcard : Wildcard
deriving DecidableEq, Repr

/-- Public descriptor key; only the extended-key variant is used by the code
under verification. -/
inductive DescriptorPublicKey
  | xpubKey (k : DescriptorXKey Xpub)
deriving DecidableEq, Repr

/-- Secret descriptor key; only the extended-key variant is used by the code
under verification. -/
inductive DescriptorSecretKey
  | xprvKey (k : DescriptorXKey Xpriv)
deriving DecidableEq, Repr

/-- Translation of miniscript DescriptorXKey(Xpriv)::to_public (external
library): split the trailing path at its last hardened segment, derive the
private key along the hardened prefix, neuter it, extend the origin by that
prefix, and keep the unhardened suffix and the wildcard. -/
def DescriptorXKey.toPublicXKey (k : DescriptorXKey Xpriv) : DescriptorXKey Xpub :=
  let unhardenedCount :=
    (k.derivation_path.reverse.takeWhile fun c =>
      match c with
      | ChildNumber.normal _ => true
      | ChildNumber.hardened _ => false).length
  let lastHardenedIdx := k.derivation_path.length - unhardenedCount
  let hardenedPath := k.derivation_path.take lastHardenedIdx
  let unhardenedPath := k.derivation_path.drop lastHardenedIdx
  let xpub := (k.xkey.derive_priv hardenedPath).neuter
  let origin :=
    match k.origin with
    | some (fp, path) => some (fp, path ++ hardenedPath)
    | Option.none =>
      if hardenedPath.isEmpty then Option.none
      else some (k.xkey.fingerprint, hardenedPath)
  { origin := origin
    xkey := xpub
    derivation_path := unhardenedPath
    wildcard := k.wildcard }

/-- Translation of DescriptorSecretKey::to_public (external library). -/
def DescriptorSecretKey.toPublic : DescriptorSecretKey → DescriptorPublicKey
  | .xprvKey k => .xpubKey k.toPublicXKey

abbrev KeyMap := List (DescriptorPublicKey × DescriptorSecretKey)

/-- Translation of the BDK into_descriptor_key / extract pipeline for a secret
descriptor key (external bdk_wallet::keys): it yields the public form of the
key together with a key map binding that public form back to the secret. -/
def extractDescriptorKey (s : DescriptorSecretKey) : DescriptorPublicKey × KeyMap :=
  (s.toPublic, [(s.toPublic, s)])

/-- Output descriptor over a key type, restricted to the four wrappers the
code under verification constructs (external library miniscript Descriptor;
new_wpkh, new_tr, new_sh_wpkh, new_pkh, whose failure cases cannot arise for
extended keys and are therefore not modelled). -/
inductive Descriptor (K : Type)
  | wpkh (k : K)
  | tr (internal_key : K) (tree : Option Unit)
  | sh_wpkh (k : K)
  | pkh (k : K)
deriving DecidableEq, Repr

/-- Key of a descriptor; every wrapper used here carries exactly one key. -/
def Descriptor.innerKey : Descriptor K → K
  | .wpkh k => k
  | .tr k _ => k
  | .sh_wpkh k => k
  | .pkh k => k

/-- Script tree of a taproot descriptor, and none for the other wrappers. -/
def Descriptor.trTree : Descriptor K → Option Unit
  | .tr _ t => t
  | _ => Option.none

/-- Functorial action on the key of a descriptor. -/
def Descriptor.mapKey (f : K → K2) : Descriptor K → Descriptor K2
  | .wpkh k => .wpkh (f k)
  | .tr k t => .tr (f k) t
  | .sh_wpkh k => .sh_wpkh (f k)
  | .pkh k => .pkh (f k)

/-- Rendered form of one key inside a produced descriptor string: either the
public form or, in secret-bearing renderings, the secret form.  Text
serialization itself is out of scope per the specification, so renderings
keep the key values. -/
inductive RenderedKey
  | publicForm (k : DescriptorPublicKey)
  | secretForm (k : DescriptorSecretKey)
deriving DecidableEq, Repr

/-- Lookup in a key map. -/
def lookupKeyMap (m : KeyMap) (k : DescriptorPublicKey) : Option DescriptorSecretKey :=
  match m with
  | [] => Option.none
  | (pk, sk) :: rest => if pk = k then some sk else lookupKeyMap rest k

/-- Translation of Descriptor::to_string (external library): every key is
rendered in its public form. -/
def renderPublic (d : Descriptor DescriptorPublicKey) : Descriptor RenderedKey :=
  d.mapKey RenderedKey.publicForm

/-- Translation of Descriptor::to_string_with_secret (external library): keys
bound in the key map are rendered in their secret form, the rest publicly. -/
def renderWithSecret (d : Descriptor DescriptorPublicKey) (m : KeyMap) :
    Descriptor RenderedKey :=
  d.mapKey fun k =>
    match lookupKeyMap m k with
    | some s => RenderedKey.secretForm s
    | Option.none => RenderedKey.publicForm k

/-- Script-type tag of the facade (utils.rs enum DescriptorType). -/
inductive DescriptorType
  | bip44
  | bip49
  | bip84
  | bip86
deriving DecidableEq, Repr, Inhabited

/-- Modelled from the spec: the Display form of DescriptorType used for the
response's type field (the impl lives in a crate module not under src); the
spec names the script types bip44, bip49, bip84, bip86. -/
def DescriptorType.displayString : DescriptorType → String
  | .bip44 => "bip44"
  | .bip49 => "bip49"
  | .bip84 => "bip84"
  | .bip86 => "bip86"

/-- Modelled from the spec: the error value of the crate (BDKCliError in the
crate's error module, not under src); the constructors are the ones the code
under src applies, each carrying its message text. -/
inductive Error
  | Generic (msg : String)
  | InvalidXprv (msg : String)
  | InvalidXpub (msg : String)
  | InvalidDerivationPath (msg : String)
  | DescriptorKeyError (msg : String)
deriving DecidableEq, Repr

/-- Modelled from the spec: the spec's InvalidKeyEncoding error class
("malformed/checksum-failing key text") corresponds to the code's
InvalidXprv and InvalidXpub constructors. -/
def Error.isInvalidKeyEncoding : Error → Bool
  | .InvalidXprv _ => true
  | .InvalidXpub _ => true
  | _ => false

/-- Rendered external or internal keychain entry of the single-path response:
the public descriptor string and the secret-bearing descriptor string. -/
structure BranchDescriptors where
  publicDesc : Descriptor RenderedKey
  privateDesc : Descriptor RenderedKey
deriving DecidableEq, Repr

/-- Structured form of the JSON object assembled by
generate_bip_descriptor_from_key (serialization out of scope). -/
structure BipDescriptorResult where
  type : String
  external : BranchDescriptors
  internal : BranchDescriptors
  fingerprint : Fingerprint
  network : String
deriving DecidableEq, Repr

/-- Structured form of the JSON object assembled by
generate_multipath_descriptor (serialization out of scope); the external and
internal fields hold the rendered public descriptors. -/
structure MultipathResult where
  type : String
  external : Descriptor DescriptorPublicKey
  internal : Descriptor DescriptorPublicKey
  fingerprint : Fingerprint
  network : String
deriving DecidableEq, Repr

/-- Translation of the make_desc_key closure of
generate_bip_descriptor_from_key (utils.rs lines 509-548): the branch path is
parsed from the branch index, the master key is packed into a DescriptorXKey
whose origin carries only the account-level path, the BDK extract pipeline
yields the public key and key map, and the chosen wrapper is applied for the
public and the secret-bearing rendering. -/
def make_desc_key (descriptor_type : DescriptorType) (fingerprint : Fingerprint)
    (derivation_path : DerivationPath) (xprv : Xpriv) (branch : Nat) :
    Except Error BranchDescriptors :=
  match DerivationPath.fromStr (toString branch) with
  | .error e => .error (.InvalidDerivationPath ("DerivationPath Error: " ++ e))
  | .ok branch_path =>
    let desc_xprv : DescriptorXKey Xpriv :=
      { origin := some (fingerprint, derivation_path)
        xkey := xprv
        derivation_path := branch_path
        wildcard := Wildcard.unhardened }
    let desc_secret := DescriptorSecretKey.xprvKey desc_xprv
    let extracted := extractDescriptorKey desc_secret
    let desc_key := extracted.1
    let keymap := extracted.2
    let public_descriptor : Descriptor DescriptorPublicKey :=
      match descriptor_type with
      | .bip84 => .wpkh desc_key
      | .bip86 => .tr desc_key Option.none
      | .bip49 => .sh_wpkh desc_key
      | .bip44 => .pkh desc_key
    let private_descriptor : Descriptor DescriptorPublicKey :=
      match descriptor_type with
      | .bip84 => .wpkh desc_key
      | .bip86 => .tr desc_key Option.none
      | .bip49 => .sh_wpkh desc_key
      | .bip44 => .pkh desc_key
    .ok { publicDesc := renderPublic public_descriptor
          privateDesc := renderWithSecret private_descriptor keymap }

/-- Translation of generate_bip_descriptor_from_key (utils.rs lines 494-566):
parse the account path, parse the key as an extended private key, take its
fingerprint, build the external (branch 0) and internal (branch 1)
descriptors, and assemble the response record. -/
def generate_bip_descriptor_from_key (network : Network) (key : String)
    (derivation_path_str : String) (descriptor_type : DescriptorType) :
    Except Error BipDescriptorResult :=
  match DerivationPath.fromStr derivation_path_str with
  | .error e => .error (.InvalidDerivationPath ("DerivationPath Error: " ++ e))
  | .ok derivation_path =>
    match parseXpriv key with
    | .error e => .error (.InvalidXprv ("Invalid xprv: " ++ e))
    | .ok xprv =>
      let fingerprint := xprv.fingerprint
      match make_desc_key descriptor_type fingerprint derivation_path xprv 0 with
      | .error e => .error e
      | .ok externalBranch =>
        match make_desc_key descriptor_type fingerprint derivation_path xprv 1 with
        | .error e => .error e
        | .ok internalBranch =>
          .ok { type := descriptor_type.displayString
                external := externalBranch
                internal := internalBranch
                fingerprint := fingerprint
                network := network.displayString }

/-- Translation of generate_descriptor_from_key_by_type (utils.rs lines
389-402): the fixed canonical account-path literal per script type, then the
shared derivation routine. -/
def generate_descriptor_from_key_by_type (network : Network) (key : String)
    (descriptor_type : DescriptorType) : Except Error BipDescriptorResult :=
  let derivation_path :=
    match descriptor_type with
    | .bip44 => "m/44h/1h/0h"
    | .bip49 => "m/49h/1h/0h"
    | .bip84 => "m/84h/1h/0h"
    | .bip86 => "m/86h/1h/0h"
  generate_bip_descriptor_from_key network key derivation_path descriptor_type

/-- Translation of generate_multipath_descriptor (utils.rs lines 447-493):
script types other than 84 are rejected before the key text is touched; a
valid extended public key yields two wpkh descriptors over descriptor keys
sharing the account-level origin and differing only in branch index. -/
def generate_multipath_descriptor (network : Network) (script_type : Nat)
    (key : String) : Except Error MultipathResult :=
  if script_type ≠ 84 then
    .error (.Generic "Only BIP84 is supported for multipath at the moment.")
  else
    match parseXpub key with
    | .error e => .error (.InvalidXpub ("Invalid xpub: " ++ e))
    | .ok xpub =>
      match DerivationPath.fromStr "m/84h/1h/0h" with
      | .error e => .error (.InvalidDerivationPath e)
      | .ok derivation_path =>
        let fingerprint := xpub.fingerprint
        let make_desc := fun (change : Nat) =>
          match DerivationPath.fromStr (toString change) with
          | .error e => Except.error (Error.InvalidDerivationPath e)
          | .ok branch_path =>
            let desc_xpub : DescriptorXKey Xpub :=
              { origin := some (fingerprint, derivation_path)
                xkey := xpub
                derivation_path := branch_path
                wildcard := Wildcard.unhardened }
            let desc_key := DescriptorPublicKey.xpubKey desc_xpub
            Except.ok (Descriptor.wpkh desc_key, desc_key)
        match make_desc 0 with
        | .error e => .error e
        | .ok externalPair =>
          match make_desc 1 with
          | .error e => .error e
          | .ok internalPair =>
            .ok { type := "bip84-multipath"
                  external := externalPair.1
                  internal := internalPair.1
                  fingerprint := fingerprint
                  network := network.displayString }

/-- Modelled from the spec: the one-shot wallet state update delivered by the
light client; whether applying it to wallet state succeeds is part of the
update data, and the applied state it produces. -/
structure Update where
  applies : Bool
  new_state : Nat
deriving DecidableEq, Repr

/-- Modelled from the spec: wallet state as an opaque collaborator; only the
effect of the atomic update application matters to the sync facade. -/
structure Wallet where
  state : Nat
deriving DecidableEq, Repr

/-- Modelled from the spec: Wallet::apply_update, "a single atomic operation;
failure to apply yields UpdateApplicationFailed" (external bdk_wallet). -/
def Wallet.apply_update (w : Wallet) (u : Update) : Except String Wallet :=
  if u.applies then .ok { state := u.new_state } else .error (toString w.state)

/-- Modelled from the spec: the bdk_kyoto LightClient handle as consumed by
sync_kyoto_client, reduced to the two observation points the function uses:
whether the requester reports the node running, and the outcome of the
one-shot update future. -/
structure LightClient where
  requester_running : Bool
  update_outcome : Except String Update
deriving DecidableEq, Repr

/-- Observable actions of the sync facade, in the order the code performs
them; the three recurring event streams are drained by a spawned background
task and do not influence the result. -/
inductive SyncEvent
  | setSubscriber
  | spawnedNode
  | spawnedLogger
  | checkedRunning
  | receivedUpdate
  | appliedUpdate
deriving DecidableEq, Repr

/-- Translation of sync_kyoto_client (utils.rs lines 342-387) as a sequential
function with an action trace: install the tracing subscriber (which fails if
a global default was already set), spawn the node and the event-stream logger,
fail if the requester reports the node not running, await the one-shot update,
apply it to the wallet, and report.  The spawned tasks run concurrently but
neither reads nor writes the sync outcome, so the embedding keeps them as
trace entries only. -/
def sync_kyoto_client (wallet : Wallet) (tracing_free : Bool)
    (client : LightClient) : Except Error Wallet × List SyncEvent :=
  if tracing_free then
    let trace0 := [SyncEvent.setSubscriber, SyncEvent.spawnedNode, SyncEvent.spawnedLogger]
    if client.requester_running then
      match client.update_outcome with
      | .error e => (.error (.Generic e), trace0 ++ [SyncEvent.checkedRunning])
      | .ok update =>
        match wallet.apply_update update with
        | .error e =>
          (.error (.Generic ("Failed to apply update: " ++ e)),
            trace0 ++ [SyncEvent.checkedRunning, SyncEvent.receivedUpdate])
        | .ok wallet2 =>
          (.ok wallet2,
            trace0 ++ [SyncEvent.checkedRunning, SyncEvent.receivedUpdate,
              SyncEvent.appliedUpdate])
    else
      (.error (.Generic "Kyoto node failed to start"),
        trace0 ++ [SyncEvent.checkedRunning])
  else
    (.error (.Generic "SetGlobalDefault error: a global default was already set"), [])

/-
Statement-layer helpers: projections out of the structured responses, the
canonical account paths, and the expected response values used by the
characterization lemmas.
-/

/-- Parsed form of the four canonical account-path literals of
generate_descriptor_from_key_by_type. -/
def canonical_account_path : DescriptorType → DerivationPath
  | .bip44 => [ChildNumber.hardened 44, ChildNumber.hardened 1, ChildNumber.hardened 0]
  | .bip49 => [ChildNumber.hardened 49, ChildNumber.hardened 1, ChildNumber.hardened 0]
  | .bip84 => [ChildNumber.hardened 84, ChildNumber.hardened 1, ChildNumber.hardened 0]
  | .bip86 => [ChildNumber.hardened 86, ChildNumber.hardened 1, ChildNumber.hardened 0]

/-- Wrapper shape of a descriptor. -/
inductive WrapperKind
  | pkh
  | sh_wpkh
  | wpkh
  | tr
deriving DecidableEq, Repr

/-- Wrapper shape of a built descriptor. -/
def Descriptor.wrapperOf : Descriptor K → WrapperKind
  | .wpkh _ => .wpkh
  | .tr _ _ => .tr
  | .sh_wpkh _ => .sh_wpkh
  | .pkh _ => .pkh

/-- Wrapper the specification's DescriptorBuilder table assigns to each script
type (comparison definition written from the spec's words, for claim C5). -/
def specWrapper : DescriptorType → WrapperKind
  | .bip44 => .pkh
  | .bip49 => .sh_wpkh
  | .bip84 => .wpkh
  | .bip86 => .tr

/-- Wrapper application as performed by the match inside make_desc_key. -/
def applyWrapper (T : DescriptorType) (k : K) : Descriptor K :=
  match T with
  | .bip84 => .wpkh k
  | .bip86 => .tr k Option.none
  | .bip49 => .sh_wpkh k
  | .bip44 => .pkh k

/-- Extended private key embedded in the secret-bearing rendering of a branch. -/
def embeddedSecretKey (b : BranchDescriptors) : Option Xpriv :=
  match b.privateDesc.innerKey with
  | RenderedKey.secretForm (DescriptorSecretKey.xprvKey k) => some k.xkey
  | _ => Option.none

/-- Extended public key embedded in the public rendering of a branch. -/
def embeddedPublicKey (b : BranchDescriptors) : Option Xpub :=
  match b.publicDesc.innerKey with
  | RenderedKey.publicForm (DescriptorPublicKey.xpubKey k) => some k.xkey
  | _ => Option.none

/-- Origin of a rendered key. -/
def RenderedKey.originOf : RenderedKey → Option (Fingerprint × DerivationPath)
  | .publicForm (.xpubKey k) => k.origin
  | .secretForm (.xprvKey k) => k.origin

/-- Trailing derivation path of a rendered key. -/
def RenderedKey.trailingPath : RenderedKey → DerivationPath
  | .publicForm (.xpubKey k) => k.derivation_path
  | .secretForm (.xprvKey k) => k.derivation_path

/-- Wildcard of a rendered key. -/
def RenderedKey.wildcardOf : RenderedKey → Wildcard
  | .publicForm (.xpubKey k) => k.wildcard
  | .secretForm (.xprvKey k) => k.wildcard

/-- Whether a rendered key carries secret material. -/
def RenderedKey.isSecret : RenderedKey → Bool
  | .secretForm _ => true
  | .publicForm _ => false

/-- Response with its echoed network field replaced, for stating that nothing
else of the response depends on the network argument. -/
def BipDescriptorResult.withNetwork (r : BipDescriptorResult) (s : String) :
    BipDescriptorResult :=
  { r with network := s }

/-- Secret descriptor key that make_desc_key builds for a given master key,
account path and branch. -/
def expected_desc_secret (fp : Fingerprint) (dp : DerivationPath) (xprv : Xpriv)
    (branch : Nat) : DescriptorSecretKey :=
  .xprvKey
    { origin := some (fp, dp)
      xkey := xprv
      derivation_path := [ChildNumber.normal branch]
      wildcard := Wildcard.unhardened }

/-- Public descriptor key obtained from the secret one through the extract
pipeline: the master key is neutered and everything else is kept. -/
def expected_desc_key (fp : Fingerprint) (dp : DerivationPath) (xprv : Xpriv)
    (branch : Nat) : DescriptorPublicKey :=
  .xpubKey
    { origin := some (fp, dp)
      xkey := xprv.neuter
      derivation_path := [ChildNumber.normal branch]
      wildcard := Wildcard.unhardened }

/-- Branch output make_desc_key produces. -/
def expectedBranch (T : DescriptorType) (fp : Fingerprint) (dp : DerivationPath)
    (xprv : Xpriv) (branch : Nat) : BranchDescriptors :=
  { publicDesc :=
      applyWrapper T (RenderedKey.publicForm (expected_desc_key fp dp xprv branch))
    privateDesc :=
      applyWrapper T (RenderedKey.secretForm (expected_desc_secret fp dp xprv branch)) }

/-- Response generate_bip_descriptor_from_key produces on a successfully
parsed key and account path. -/
def expectedResult (net : Network) (T : DescriptorType) (dp : DerivationPath)
    (K : Xpriv) : BipDescriptorResult :=
  { type := T.displayString
    external := expectedBranch T K.fingerprint dp K 0
    internal := expectedBranch T K.fingerprint dp K 1
    fingerprint := K.fingerprint
    network := net.displayString }

/-- Response generate_multipath_descriptor produces on a successfully parsed
extended public key. -/
def expectedMultipath (net : Network) (P : Xpub) : MultipathResult :=
  { type := "bip84-multipath"
    external := .wpkh (.xpubKey
      { origin := some (P.fingerprint, canonical_account_path .bip84)
        xkey := P
        derivation_path := [ChildNumber.normal 0]
        wildcard := Wildcard.unhardened })
    internal := .wpkh (.xpubKey
      { origin := some (P.fingerprint, canonical_account_path .bip84)
        xkey := P
        derivation_path := [ChildNumber.normal 1]
        wildcard := Wildcard.unhardened })
    fingerprint := P.fingerprint
    network := net.displayString }

/-
Concrete keys used by witnesses and counterexamples.  The key strings are
base58-check encodings (under the modelled checksum) of BIP32 payloads; the
records below are the values they parse to.
-/

/-- Test-network extended private key text used by witnesses. -/
def tprvText : String :=
  "tprv8ZgxMBicQKsPctAxJSNedRstgSbgnpFDgc8nBAk8j2nEAZjNprvFv8DZgxysvMFgvWJHoizjj7yHj3FxXZeAybUJPfxhDSNgddm1ReUW8kq"

/-- Test-network extended public key text used by witnesses. -/
def tpubText : String :=
  "tpubD6NzVbkrYhZ4WMCkC63F2qY1FU7cx9S8FujZTgnS9Jad13z9TFjr6cqRs5vmt7sGTZ6sbJBBanCzUSxAX6sT7Evv1uxHaEViDfW1fZC9LVC"

/-- Malformed (checksum-failing, truncated) key text used by witnesses. -/
def truncatedKeyText : String := "tprv8"

/-- Value tprvText parses to. -/
def tprvKey : Xpriv :=
  { network := NetworkKind.test
    depth := 0
    parent_fingerprint := [0, 0, 0, 0]
    child_number := ChildNumber.normal 0
    chain_code := [1, 2, 3, 4, 5, 6, 7, 8, 9, 10, 11, 12, 13, 14, 15, 16, 17, 18,
      19, 20, 21, 22, 23, 24, 25, 26, 27, 28, 29, 30, 31, 32]
    private_key := 7 }

/-- Value tpubText parses to. -/
def tpubKey : Xpub :=
  { network := NetworkKind.test
    depth := 0
    parent_fingerprint := [0, 0, 0, 0]
    child_number := ChildNumber.normal 0
    chain_code := [1, 2, 3, 4, 5, 6, 7, 8, 9, 10, 11, 12, 13, 14, 15, 16, 17, 18,
      19, 20, 21, 22, 23, 24, 25, 26, 27, 28, 29, 30, 31, 32]
    public_key := [2, 0, 0, 0, 0, 0, 0, 0, 0, 0, 0, 0, 0, 0, 0, 0, 0, 0, 0, 0, 0,
      0, 0, 0, 0, 0, 0, 0, 0, 0, 0, 0, 99] }

/-
Characterization lemmas: closed evaluations of the path literals, and the
symbolic evaluation of the derivation pipeline on a successfully parsed key.
-/

theorem fromStr_44 :
    DerivationPath.fromStr "m/44h/1h/0h" = .ok (canonical_account_path .bip44) := by rfl

theorem fromStr_49 :
    DerivationPath.fromStr "m/49h/1h/0h" = .ok (canonical_account_path .bip49) := by rfl

theorem fromStr_84 :
    DerivationPath.fromStr "m/84h/1h/0h" = .ok (canonical_account_path .bip84) := by rfl

theorem fromStr_86 :
    DerivationPath.fromStr "m/86h/1h/0h" = .ok (canonical_account_path .bip86) := by rfl

theorem fromStr_branch0 :
    DerivationPath.fromStr (toString (0 : Nat)) = .ok [ChildNumber.normal 0] := by rfl

theorem fromStr_branch1 :
    DerivationPath.fromStr (toString (1 : Nat)) = .ok [ChildNumber.normal 1] := by rfl

theorem make_desc_key_zero (T : DescriptorType) (fp : Fingerprint)
    (dp : DerivationPath) (xprv : Xpriv) :
    make_desc_key T fp dp xprv 0 = .ok (expectedBranch T fp dp xprv 0) := by
  cases T <;>
    simp [make_desc_key, fromStr_branch0, expectedBranch, expected_desc_key,
      expected_desc_secret, applyWrapper, extractDescriptorKey,
      DescriptorSecretKey.toPublic, DescriptorXKey.toPublicXKey, Xpriv.derive_priv,
      renderPublic, renderWithSecret, Descriptor.mapKey, lookupKeyMap,
      List.takeWhile]

theorem make_desc_key_one (T : DescriptorType) (fp : Fingerprint)
    (dp : DerivationPath) (xprv : Xpriv) :
    make_desc_key T fp dp xprv 1 = .ok (expectedBranch T fp dp xprv 1) := by
  cases T <;>
    simp [make_desc_key, fromStr_branch1, expectedBranch, expected_desc_key,
      expected_desc_secret, applyWrapper, extractDescriptorKey,
      DescriptorSecretKey.toPublic, DescriptorXKey.toPublicXKey, Xpriv.derive_priv,
      renderPublic, renderWithSecret, Descriptor.mapKey, lookupKeyMap,
      List.takeWhile]

theorem generate_bip_eq (net : Network) (key dstr : String) (T : DescriptorType)
    (K : Xpriv) (dp : DerivationPath)
    (hd : DerivationPath.fromStr dstr = .ok dp)
    (hk : parseXpriv key = .ok K) :
    generate_bip_descriptor_from_key net key dstr T = .ok (expectedResult net T dp K) := by
  simp [generate_bip_descriptor_from_key, hd, hk, make_desc_key_zero,
    make_desc_key_one, expectedResult]

theorem by_type_eq (net : Network) (key : String) (T : DescriptorType) (K : Xpriv)
    (hk : parseXpriv key = .ok K) :
    generate_descriptor_from_key_by_type net key T =
      .ok (expectedResult net T (canonical_account_path T) K) := by
  cases T
  case bip44 => exact generate_bip_eq net key _ _ K _ fromStr_44 hk
  case bip49 => exact generate_bip_eq net key _ _ K _ fromStr_49 hk
  case bip84 => exact generate_bip_eq net key _ _ K _ fromStr_84 hk
  case bip86 => exact generate_bip_eq net key _ _ K _ fromStr_86 hk

theorem generate_multipath_eq (net : Network) (key : String) (P : Xpub)
    (hk : parseXpub key = .ok P) :
    generate_multipath_descriptor net 84 key = .ok (expectedMultipath net P) := by
  simp [generate_multipath_descriptor, hk, fromStr_84, fromStr_branch0,
    fromStr_branch1, expectedMultipath]

theorem by_type_error_of_parse_error (net : Network) (key : String)
    (T : DescriptorType) (e : String) (hk : parseXpriv key = .error e) :
    generate_descriptor_from_key_by_type net key T =
      .error (.InvalidXprv ("Invalid xprv: " ++ e)) := by
  cases T <;>
    simp [generate_descriptor_from_key_by_type, generate_bip_descriptor_from_key,
      fromStr_44, fromStr_49, fromStr_84, fromStr_86, hk]

theorem multipath_error_of_parse_error (net : Network) (key : String) (e : String)
    (hk : parseXpub key = .error e) :
    generate_multipath_descriptor net 84 key =
      .error (.InvalidXpub ("Invalid xpub: " ++ e)) := by
  simp [generate_multipath_descriptor, hk]

theorem parseXpriv_of_xpub_text (key : String) (P : Xpub)
    (hk : parseXpub key = .ok P) :
    parseXpriv key = .error "UnknownVersion" := by
  unfold parseXpub at hk
  unfold parseXpriv
  cases hbc : base58CheckDecode key with
  | error e => rw [hbc] at hk; exact absurd hk (by simp)
  | ok data =>
    rw [hbc] at hk
    by_cases hlen : data.length = 78
    · simp [hlen] at hk ⊢
      unfold Xpub.decode at hk
      unfold Xpriv.decode
      simp [hlen] at hk ⊢
      by_cases hv : data.take 4 = [4, 136, 178, 30] ∨ data.take 4 = [4, 53, 135, 207]
      · have hnv : ¬(data.take 4 = [4, 136, 173, 228] ∨ data.take 4 = [4, 53, 131, 148]) := by
          rcases hv with h | h <;> rw [h] <;> decide
        simp [hnv]
      · exact absurd hk (by simp [hv])
    · simp [hlen] at hk

theorem by_type_network_erased (n1 n2 : Network) (key : String) (T : DescriptorType) :
    (generate_descriptor_from_key_by_type n1 key T).map (fun r => r.withNetwork "") =
      (generate_descriptor_from_key_by_type n2 key T).map (fun r => r.withNetwork "") := by
  cases hk : parseXpriv key with
  | error e =>
    rw [by_type_error_of_parse_error n1 key T e hk,
      by_type_error_of_parse_error n2 key T e hk]
  | ok K =>
    rw [by_type_eq n1 key T K hk, by_type_eq n2 key T K hk]
    simp [expectedResult, BipDescriptorResult.withNetwork, Except.map]

/-
Claim theorems.
-/

/-- C1 counterexample: at the concrete valid master key tprvText with script
type bip84, the extended key embedded in the external descriptor is not the
account-level key obtained by deriving the master key along the canonical
account path, so the claim as stated is false at this input.  The second
conjunct records the parsed master key. -/
theorem C1_counterexample :
    (generate_descriptor_from_key_by_type Network.testnet tprvText
        DescriptorType.bip84).map (fun r => embeddedSecretKey r.external) ≠
      .ok (some (tprvKey.derive_priv (canonical_account_path DescriptorType.bip84))) ∧
    parseXpriv tprvText = .ok tprvKey := by
  constructor
  · decide
  · rfl

/-- C1 amended: deriveFromKey performs no account-level derivation: for every
valid key text, the extended key embedded in both the external and internal
descriptors is the parsed master key itself, neutered in the public
renderings, with the account path recorded only in the origin. -/
theorem C1_master_key_embedded (net : Network) (key : String) (T : DescriptorType)
    (K : Xpriv) (r : BipDescriptorResult) (hk : parseXpriv key = .ok K)
    (hr : generate_descriptor_from_key_by_type net key T = .ok r) :
    embeddedSecretKey r.external = some K ∧
    embeddedSecretKey r.internal = some K ∧
    embeddedPublicKey r.external = some K.neuter ∧
    embeddedPublicKey r.internal = some K.neuter := by
  rw [by_type_eq net key T K hk] at hr
  injection hr with hr
  subst hr
  cases T <;>
    simp [expectedResult, expectedBranch, embeddedSecretKey, embeddedPublicKey,
      applyWrapper, expected_desc_key, expected_desc_secret, Descriptor.innerKey]

/-- C1 witness: the amended theorem applied at the concrete key tprvText. -/
theorem C1_master_key_embedded_witness :
    embeddedSecretKey (expectedResult Network.testnet DescriptorType.bip84
        (canonical_account_path DescriptorType.bip84) tprvKey).external = some tprvKey ∧
    embeddedSecretKey (expectedResult Network.testnet DescriptorType.bip84
        (canonical_account_path DescriptorType.bip84) tprvKey).internal = some tprvKey ∧
    embeddedPublicKey (expectedResult Network.testnet DescriptorType.bip84
        (canonical_account_path DescriptorType.bip84) tprvKey).external = some tprvKey.neuter ∧
    embeddedPublicKey (expectedResult Network.testnet DescriptorType.bip84
        (canonical_account_path DescriptorType.bip84) tprvKey).internal = some tprvKey.neuter :=
  C1_master_key_embedded Network.testnet tprvText DescriptorType.bip84 tprvKey
    (expectedResult Network.testnet DescriptorType.bip84
      (canonical_account_path DescriptorType.bip84) tprvKey) (by rfl) (by rfl)

/-- C2 counterexample: a test-network key with caller network bitcoin: the
network kinds differ, yet derivation succeeds instead of returning an error,
so the claimed network-match invariant is false at this input. -/
theorem C2_counterexample :
    (parseXpriv tprvText).map (fun k => k.network) = .ok NetworkKind.test ∧
    Network.bitcoin.toKind ≠ NetworkKind.test ∧
    (generate_descriptor_from_key_by_type Network.bitcoin tprvText
      DescriptorType.bip84).isOk = true := by
  refine ⟨by rfl, by decide, ?_⟩
  rw [by_type_eq Network.bitcoin tprvText DescriptorType.bip84 tprvKey (by rfl)]
  rfl

/-- C2 amended: no network-tag check is performed: the outcome of deriveFromKey
is identical for every caller-supplied target network up to the echoed network
field, and derivation proceeds for every valid key whatever the target
network, including when the key's network kind differs from it. -/
theorem C2_network_not_checked (n1 n2 : Network) (key : String) (T : DescriptorType) :
    (generate_descriptor_from_key_by_type n1 key T).map (fun r => r.withNetwork "") =
      (generate_descriptor_from_key_by_type n2 key T).map (fun r => r.withNetwork "") ∧
    (∀ K : Xpriv, parseXpriv key = .ok K →
      (generate_descriptor_from_key_by_type n1 key T).isOk = true) := by
  refine ⟨by_type_network_erased n1 n2 key T, fun K hk => ?_⟩
  rw [by_type_eq n1 key T K hk]
  rfl

/-- C2 witness: the amended theorem applied at the concrete test-network key
with mainnet as the target network. -/
theorem C2_network_not_checked_witness :
    ((generate_descriptor_from_key_by_type Network.bitcoin tprvText
        DescriptorType.bip44).map (fun r => r.withNetwork "") =
      (generate_descriptor_from_key_by_type Network.signet tprvText
        DescriptorType.bip44).map (fun r => r.withNetwork "")) ∧
    (∀ K : Xpriv, parseXpriv tprvText = .ok K →
      (generate_descriptor_from_key_by_type Network.bitcoin tprvText
        DescriptorType.bip44).isOk = true) :=
  C2_network_not_checked Network.bitcoin Network.signet tprvText DescriptorType.bip44

/-- C3 counterexample: a valid public (xpub-form) key text is rejected by
deriveFromKey, so the claim that both private and public key text are
accepted is false at this input. -/
theorem C3_counterexample :
    parseXpub tpubText = .ok tpubKey ∧
    (generate_descriptor_from_key_by_type Network.testnet tpubText
      DescriptorType.bip84).isOk = false := by
  constructor
  · rfl
  · rw [by_type_error_of_parse_error Network.testnet tpubText DescriptorType.bip84
      "UnknownVersion" (by rfl)]
    rfl

/-- C3 amended: deriveFromKey accepts only private (xprv-form) extended key
text; for every valid private key both descriptor renderings are produced,
the public one free of secret material and the private one embedding the
secret key, while public (xpub-form) key text always fails with the
invalid-key error. -/
theorem C3_xprv_only :
    (∀ (net : Network) (key : String) (T : DescriptorType) (K : Xpriv)
        (r : BipDescriptorResult), parseXpriv key = .ok K →
        generate_descriptor_from_key_by_type net key T = .ok r →
        r.external.publicDesc.innerKey.isSecret = false ∧
        r.internal.publicDesc.innerKey.isSecret = false ∧
        r.external.privateDesc.innerKey.isSecret = true ∧
        r.internal.privateDesc.innerKey.isSecret = true ∧
        embeddedSecretKey r.external = some K ∧
        embeddedSecretKey r.internal = some K) ∧
    (∀ (net : Network) (key : String) (T : DescriptorType) (P : Xpub),
        parseXpub key = .ok P →
        generate_descriptor_from_key_by_type net key T =
          .error (.InvalidXprv "Invalid xprv: UnknownVersion")) := by
  constructor
  · intro net key T K r hk hr
    rw [by_type_eq net key T K hk] at hr
    injection hr with hr
    subst hr
    cases T <;>
      simp [expectedResult, expectedBranch, embeddedSecretKey, applyWrapper,
        expected_desc_key, expected_desc_secret, Descriptor.innerKey,
        RenderedKey.isSecret]
  · intro net key T P hk
    have := by_type_error_of_parse_error net key T "UnknownVersion"
      (parseXpriv_of_xpub_text key P hk)
    simpa using this

/-- C3 witness: both parts of the amended theorem applied at the concrete
private and public keys. -/
theorem C3_xprv_only_witness :
    ((expectedResult Network.testnet DescriptorType.bip49
        (canonical_account_path DescriptorType.bip49)
        tprvKey).external.publicDesc.innerKey.isSecret = false ∧
      (expectedResult Network.testnet DescriptorType.bip49
        (canonical_account_path DescriptorType.bip49)
        tprvKey).internal.publicDesc.innerKey.isSecret = false ∧
      (expectedResult Network.testnet DescriptorType.bip49
        (canonical_account_path DescriptorType.bip49)
        tprvKey).external.privateDesc.innerKey.isSecret = true ∧
      (expectedResult Network.testnet DescriptorType.bip49
        (canonical_account_path DescriptorType.bip49)
        tprvKey).internal.privateDesc.innerKey.isSecret = true ∧
      embeddedSecretKey (expectedResult Network.testnet DescriptorType.bip49
        (canonical_account_path DescriptorType.bip49) tprvKey).external = some tprvKey ∧
      embeddedSecretKey (expectedResult Network.testnet DescriptorType.bip49
        (canonical_account_path DescriptorType.bip49) tprvKey).internal = some tprvKey) ∧
    generate_descriptor_from_key_by_type Network.testnet tpubText
        DescriptorType.bip84 = .error (.InvalidXprv "Invalid xprv: UnknownVersion") :=
  ⟨C3_xprv_only.1 Network.testnet tprvText DescriptorType.bip49 tprvKey
      (expectedResult Network.testnet DescriptorType.bip49
        (canonical_account_path DescriptorType.bip49) tprvKey) (by rfl) (by rfl),
    C3_xprv_only.2 Network.testnet tpubText DescriptorType.bip84 tpubKey (by rfl)⟩

/-- C4: for every valid private extended key and script type, both produced
descriptors carry an origin consisting of the master key's fingerprint paired
with the account-level path only, never the branch index, and the response's
fingerprint field equals that fingerprint. -/
theorem C4_origin_is_account_level (net : Network) (key : String)
    (T : DescriptorType) (K : Xpriv) (r : BipDescriptorResult)
    (hk : parseXpriv key = .ok K)
    (hr : generate_descriptor_from_key_by_type net key T = .ok r) :
    r.fingerprint = K.fingerprint ∧
    r.external.publicDesc.innerKey.originOf =
      some (K.fingerprint, canonical_account_path T) ∧
    r.external.privateDesc.innerKey.originOf =
      some (K.fingerprint, canonical_account_path T) ∧
    r.internal.publicDesc.innerKey.originOf =
      some (K.fingerprint, canonical_account_path T) ∧
    r.internal.privateDesc.innerKey.originOf =
      some (K.fingerprint, canonical_account_path T) := by
  rw [by_type_eq net key T K hk] at hr
  injection hr with hr
  subst hr
  cases T <;>
    simp [expectedResult, expectedBranch, applyWrapper, expected_desc_key,
      expected_desc_secret, Descriptor.innerKey, RenderedKey.originOf]

/-- C4 witness: the theorem applied at the concrete key tprvText. -/
theorem C4_origin_is_account_level_witness :
    (expectedResult Network.testnet DescriptorType.bip86
        (canonical_account_path DescriptorType.bip86) tprvKey).fingerprint =
      tprvKey.fingerprint ∧
    (expectedResult Network.testnet DescriptorType.bip86
        (canonical_account_path DescriptorType.bip86)
        tprvKey).external.publicDesc.innerKey.originOf =
      some (tprvKey.fingerprint, canonical_account_path DescriptorType.bip86) ∧
    (expectedResult Network.testnet DescriptorType.bip86
        (canonical_account_path DescriptorType.bip86)
        tprvKey).external.privateDesc.innerKey.originOf =
      some (tprvKey.fingerprint, canonical_account_path DescriptorType.bip86) ∧
    (expectedResult Network.testnet DescriptorType.bip86
        (canonical_account_path DescriptorType.bip86)
        tprvKey).internal.publicDesc.innerKey.originOf =
      some (tprvKey.fingerprint, canonical_account_path DescriptorType.bip86) ∧
    (expectedResult Network.testnet DescriptorType.bip86
        (canonical_account_path DescriptorType.bip86)
        tprvKey).internal.privateDesc.innerKey.originOf =
      some (tprvKey.fingerprint, canonical_account_path DescriptorType.bip86) :=
  C4_origin_is_account_level Network.testnet tprvText DescriptorType.bip86 tprvKey
    (expectedResult Network.testnet DescriptorType.bip86
      (canonical_account_path DescriptorType.bip86) tprvKey) (by rfl) (by rfl)

/-- C5: for every script type, deriveFromKey records the fixed canonical
account path of that script type in the origin of each produced descriptor
key, and wraps the key with exactly the wrapper the specification's table
assigns: pkh for bip44, sh(wpkh) for bip49, wpkh for bip84, and tr with no
script tree for bip86. -/
theorem C5_wrapper_and_path (net : Network) (key : String) (T : DescriptorType)
    (K : Xpriv) (r : BipDescriptorResult) (hk : parseXpriv key = .ok K)
    (hr : generate_descriptor_from_key_by_type net key T = .ok r) :
    r.external.publicDesc.wrapperOf = specWrapper T ∧
    r.external.privateDesc.wrapperOf = specWrapper T ∧
    r.internal.publicDesc.wrapperOf = specWrapper T ∧
    r.internal.privateDesc.wrapperOf = specWrapper T ∧
    r.external.publicDesc.trTree = Option.none ∧
    r.external.privateDesc.trTree = Option.none ∧
    r.internal.publicDesc.trTree = Option.none ∧
    r.internal.privateDesc.trTree = Option.none ∧
    r.external.publicDesc.innerKey.originOf =
      some (K.fingerprint, canonical_account_path T) ∧
    r.internal.publicDesc.innerKey.originOf =
      some (K.fingerprint, canonical_account_path T) := by
  rw [by_type_eq net key T K hk] at hr
  injection hr with hr
  subst hr
  cases T <;>
    simp [expectedResult, expectedBranch, applyWrapper, expected_desc_key,
      expected_desc_secret, Descriptor.innerKey, RenderedKey.originOf,
      Descriptor.wrapperOf, Descriptor.trTree, specWrapper]

/-- C5 witness: the theorem applied at the concrete key tprvText with script
type bip44. -/
theorem C5_wrapper_and_path_witness :
    (expectedResult Network.testnet DescriptorType.bip44
        (canonical_account_path DescriptorType.bip44)
        tprvKey).external.publicDesc.wrapperOf = specWrapper DescriptorType.bip44 ∧
    (expectedResult Network.testnet DescriptorType.bip44
        (canonical_account_path DescriptorType.bip44)
        tprvKey).external.privateDesc.wrapperOf = specWrapper DescriptorType.bip44 ∧
    (expectedResult Network.testnet DescriptorType.bip44
        (canonical_account_path DescriptorType.bip44)
        tprvKey).internal.publicDesc.wrapperOf = specWrapper DescriptorType.bip44 ∧
    (expectedResult Network.testnet DescriptorType.bip44
        (canonical_account_path DescriptorType.bip44)
        tprvKey).internal.privateDesc.wrapperOf = specWrapper DescriptorType.bip44 ∧
    (expectedResult Network.testnet DescriptorType.bip44
        (canonical_account_path DescriptorType.bip44)
        tprvKey).external.publicDesc.trTree = Option.none ∧
    (expectedResult Network.testnet DescriptorType.bip44
        (canonical_account_path DescriptorType.bip44)
        tprvKey).external.privateDesc.trTree = Option.none ∧
    (expectedResult Network.testnet DescriptorType.bip44
        (canonical_account_path DescriptorType.bip44)
        tprvKey).internal.publicDesc.trTree = Option.none ∧
    (expectedResult Network.testnet DescriptorType.bip44
        (canonical_account_path DescriptorType.bip44)
        tprvKey).internal.privateDesc.trTree = Option.none ∧
    (expectedResult Network.testnet DescriptorType.bip44
        (canonical_account_path DescriptorType.bip44)
        tprvKey).external.publicDesc.innerKey.originOf =
      some (tprvKey.fingerprint, canonical_account_path DescriptorType.bip44) ∧
    (expectedResult Network.testnet DescriptorType.bip44
        (canonical_account_path DescriptorType.bip44)
        tprvKey).internal.publicDesc.innerKey.originOf =
      some (tprvKey.fingerprint, canonical_account_path DescriptorType.bip44) :=
  C5_wrapper_and_path Network.testnet tprvText DescriptorType.bip44 tprvKey
    (expectedResult Network.testnet DescriptorType.bip44
      (canonical_account_path DescriptorType.bip44) tprvKey) (by rfl) (by rfl)

/-- C6: for every network and key text, deriveMultipath with a script type
other than BIP84 fails with the unsupported-multipath error (the Generic
variant carrying the code's message) and produces no partial output: the
outcome is an error that does not depend on the key text at all. -/
theorem C6_multipath_rejects_non_bip84 (net : Network) (script_type : Nat)
    (key key2 : String) (h : script_type ≠ 84) :
    generate_multipath_descriptor net script_type key =
      .error (.Generic "Only BIP84 is supported for multipath at the moment.") ∧
    generate_multipath_descriptor net script_type key =
      generate_multipath_descriptor net script_type key2 := by
  constructor <;> simp [generate_multipath_descriptor, h]

/-- C6 witness: the theorem applied at script type 49. -/
theorem C6_multipath_rejects_non_bip84_witness :
    generate_multipath_descriptor Network.testnet 49 tpubText =
      .error (.Generic "Only BIP84 is supported for multipath at the moment.") ∧
    generate_multipath_descriptor Network.testnet 49 tpubText =
      generate_multipath_descriptor Network.testnet 49 "junk" :=
  C6_multipath_rejects_non_bip84 Network.testnet 49 tpubText "junk" (by decide)

/-- C7: for every valid xpub, deriveMultipath with script type 84 succeeds and
produces exactly two public descriptor keys sharing the origin made of the
xpub's fingerprint and the canonical bip84 account path, differing only in
branch index (0 external, 1 internal), each with the Unhardened wildcard, and
the response's type field is bip84-multipath. -/
theorem C7_multipath_bip84 (net : Network) (key : String) (P : Xpub)
    (hk : parseXpub key = .ok P) :
    generate_multipath_descriptor net 84 key = .ok (expectedMultipath net P) ∧
    (expectedMultipath net P).type = "bip84-multipath" ∧
    (expectedMultipath net P).external =
      Descriptor.wpkh (DescriptorPublicKey.xpubKey
        { origin := some (P.fingerprint, canonical_account_path DescriptorType.bip84)
          xkey := P
          derivation_path := [ChildNumber.normal 0]
          wildcard := Wildcard.unhardened }) ∧
    (expectedMultipath net P).internal =
      Descriptor.wpkh (DescriptorPublicKey.xpubKey
        { origin := some (P.fingerprint, canonical_account_path DescriptorType.bip84)
          xkey := P
          derivation_path := [ChildNumber.normal 1]
          wildcard := Wildcard.unhardened }) ∧
    (expectedMultipath net P).fingerprint = P.fingerprint :=
  ⟨generate_multipath_eq net key P hk, rfl, rfl, rfl, rfl⟩

/-- C7 witness: the theorem applied at the concrete xpub tpubText. -/
theorem C7_multipath_bip84_witness :
    generate_multipath_descriptor Network.signet 84 tpubText =
      .ok (expectedMultipath Network.signet tpubKey) ∧
    (expectedMultipath Network.signet tpubKey).type = "bip84-multipath" ∧
    (expectedMultipath Network.signet tpubKey).external =
      Descriptor.wpkh (DescriptorPublicKey.xpubKey
        { origin := some (tpubKey.fingerprint, canonical_account_path DescriptorType.bip84)
          xkey := tpubKey
          derivation_path := [ChildNumber.normal 0]
          wildcard := Wildcard.unhardened }) ∧
    (expectedMultipath Network.signet tpubKey).internal =
      Descriptor.wpkh (DescriptorPublicKey.xpubKey
        { origin := some (tpubKey.fingerprint, canonical_account_path DescriptorType.bip84)
          xkey := tpubKey
          derivation_path := [ChildNumber.normal 1]
          wildcard := Wildcard.unhardened }) ∧
    (expectedMultipath Network.signet tpubKey).fingerprint = tpubKey.fingerprint :=
  C7_multipath_bip84 Network.signet tpubText tpubKey (by rfl)

/-- C8: whenever the key text fails to parse (malformed base58, bad checksum,
wrong length, unknown version), deriveFromKey fails with the InvalidXprv
error and deriveMultipath with the InvalidXpub error, both within the spec's
InvalidKeyEncoding class, returned as values (the embedded functions are
total, so no panic is possible). -/
theorem C8_invalid_key_encoding (net : Network) (key : String) (T : DescriptorType)
    (e : String) :
    (parseXpriv key = .error e →
      generate_descriptor_from_key_by_type net key T =
        .error (.InvalidXprv ("Invalid xprv: " ++ e)) ∧
      (Error.InvalidXprv ("Invalid xprv: " ++ e)).isInvalidKeyEncoding = true) ∧
    (parseXpub key = .error e →
      generate_multipath_descriptor net 84 key =
        .error (.InvalidXpub ("Invalid xpub: " ++ e)) ∧
      (Error.InvalidXpub ("Invalid xpub: " ++ e)).isInvalidKeyEncoding = true) := by
  constructor
  · intro hk
    exact ⟨by_type_error_of_parse_error net key T e hk, rfl⟩
  · intro hk
    exact ⟨multipath_error_of_parse_error net key e hk, rfl⟩

/-- C8 witness: the theorem applied at the concrete truncated key text, whose
checksum fails for both parse directions. -/
theorem C8_invalid_key_encoding_witness :
    (generate_descriptor_from_key_by_type Network.testnet truncatedKeyText
        DescriptorType.bip84 =
      .error (.InvalidXprv ("Invalid xprv: " ++ "IncorrectChecksumError")) ∧
      (Error.InvalidXprv ("Invalid xprv: " ++ "IncorrectChecksumError")).isInvalidKeyEncoding = true) ∧
    (generate_multipath_descriptor Network.testnet 84 truncatedKeyText =
      .error (.InvalidXpub ("Invalid xpub: " ++ "IncorrectChecksumError")) ∧
      (Error.InvalidXpub ("Invalid xpub: " ++ "IncorrectChecksumError")).isInvalidKeyEncoding = true) :=
  ⟨(C8_invalid_key_encoding Network.testnet truncatedKeyText DescriptorType.bip84
      "IncorrectChecksumError").1 (by rfl),
    (C8_invalid_key_encoding Network.testnet truncatedKeyText DescriptorType.bip84
      "IncorrectChecksumError").2 (by rfl)⟩

/-- C9: the sync facade fails when the client reports the node not running,
never having awaited the update; it fails with the update-application error
when applying the received update fails; and it completes successfully
exactly when the single update has been received and successfully applied. -/
theorem C9_sync_outcome (w : Wallet) (t : Bool) (c : LightClient) :
    (c.requester_running = false →
      (sync_kyoto_client w t c).1.isOk = false ∧
      SyncEvent.receivedUpdate ∉ (sync_kyoto_client w t c).2) ∧
    (∀ (u : Update) (e : String), t = true → c.requester_running = true →
      c.update_outcome = .ok u → w.apply_update u = .error e →
      (sync_kyoto_client w t c).1 =
        .error (.Generic ("Failed to apply update: " ++ e))) ∧
    ((sync_kyoto_client w t c).1.isOk = true ↔
      SyncEvent.receivedUpdate ∈ (sync_kyoto_client w t c).2 ∧
      SyncEvent.appliedUpdate ∈ (sync_kyoto_client w t c).2) := by
  obtain ⟨run, upd⟩ := c
  refine ⟨?_, ?_, ?_⟩
  · intro hrun
    subst hrun
    cases t <;> simp [sync_kyoto_client, Except.isOk, Except.toBool]
  · intro u e ht hrun hupd hap
    subst ht
    subst hrun
    subst hupd
    simp [sync_kyoto_client, hap]
  · cases t with
    | false => simp [sync_kyoto_client, Except.isOk, Except.toBool]
    | true =>
      cases run with
      | false => simp [sync_kyoto_client, Except.isOk, Except.toBool]
      | true =>
        cases upd with
        | error e => simp [sync_kyoto_client, Except.isOk, Except.toBool]
        | ok u =>
          by_cases hap : u.applies = true <;>
            simp [sync_kyoto_client, Wallet.apply_update, hap, Except.isOk,
              Except.toBool]

/-- C9 witness: the theorem applied at a client whose update cannot be
applied, and at a client whose node is not running. -/
theorem C9_sync_outcome_witness :
    (sync_kyoto_client ⟨3⟩ true ⟨true, Except.ok ⟨false, 5⟩⟩).1 =
      .error (.Generic ("Failed to apply update: " ++ "3")) ∧
    ((sync_kyoto_client ⟨3⟩ true ⟨false, Except.error "gone"⟩).1.isOk = false ∧
      SyncEvent.receivedUpdate ∉
        (sync_kyoto_client ⟨3⟩ true ⟨false, Except.error "gone"⟩).2) :=
  ⟨(C9_sync_outcome ⟨3⟩ true ⟨true, Except.ok ⟨false, 5⟩⟩).2.1 ⟨false, 5⟩ "3"
      rfl rfl rfl rfl,
    (C9_sync_outcome ⟨3⟩ true ⟨false, Except.error "gone"⟩).1 rfl⟩

/-- C10: the account path recorded by deriveFromKey always uses the hardened
coin type 1, for every network including mainnet; the network argument never
influences anything but the echoed network field of the response. -/
theorem C10_hardened_coin_type_one (n1 n2 : Network) (key : String)
    (T : DescriptorType) :
    (∀ (K : Xpriv) (r : BipDescriptorResult), parseXpriv key = .ok K →
      generate_descriptor_from_key_by_type n1 key T = .ok r →
      (canonical_account_path T).getD 1 (ChildNumber.normal 0) =
        ChildNumber.hardened 1 ∧
      r.external.publicDesc.innerKey.originOf =
        some (K.fingerprint, canonical_account_path T) ∧
      r.network = n1.displayString) ∧
    (generate_descriptor_from_key_by_type n1 key T).map (fun r => r.withNetwork "") =
      (generate_descriptor_from_key_by_type n2 key T).map (fun r => r.withNetwork "") := by
  constructor
  · intro K r hk hr
    rw [by_type_eq n1 key T K hk] at hr
    injection hr with hr
    subst hr
    cases T <;>
      simp [expectedResult, expectedBranch, applyWrapper, expected_desc_key,
        Descriptor.innerKey, RenderedKey.originOf, canonical_account_path]
  · exact by_type_network_erased n1 n2 key T

/-- C10 witness: the theorem applied at the concrete key with mainnet as the
target network. -/
theorem C10_hardened_coin_type_one_witness :
    (canonical_account_path DescriptorType.bip84).getD 1 (ChildNumber.normal 0) =
      ChildNumber.hardened 1 ∧
    (expectedResult Network.bitcoin DescriptorType.bip84
        (canonical_account_path DescriptorType.bip84)
        tprvKey).external.publicDesc.innerKey.originOf =
      some (tprvKey.fingerprint, canonical_account_path DescriptorType.bip84) ∧
    (expectedResult Network.bitcoin DescriptorType.bip84
        (canonical_account_path DescriptorType.bip84) tprvKey).network =
      Network.bitcoin.displayString :=
  (C10_hardened_coin_type_one Network.bitcoin Network.regtest tprvText
      DescriptorType.bip84).1 tprvKey
    (expectedResult Network.bitcoin DescriptorType.bip84
      (canonical_account_path DescriptorType.bip84) tprvKey) (by rfl) (by rfl)

end BdkCli
